import Mathlib

/-!
Shallow embedding of the storage layer of `insights-results-aggregator`
(files `storage/storage.go` and `storage/rule_toggle.go`), together with
theorems settling the spec claims about it.

Modelling conventions:
* Go `time.Time` values are modelled as `Nat` (only ordering and equality
  of timestamps matter to the code under study; `t1.After t2` is `t2 < t1`).
* Byte slices and SQL text are modelled as `String`.
* The SQL tables are modelled as lists of rows; the `report` table is an
  association list keyed by the cluster name (its unique key).
* `database/sql` failures that the code merely propagates are modelled by
  boolean oracles (`queryOk`, `execOk`, `commitOk`) passed to the write path.
* `encoding/json` validation inside `json.Unmarshal` is modelled by an
  abstract validity predicate `jsonValid : String → Bool`; `json.RawMessage`
  keeps the input bytes unchanged, so both branches carry the same payload.
-/

namespace Aggregator

/-- Go `types.DBDriver`: the configured database backend. -/
inductive DBDriver where
  | sqlite3
  | postgres
  | other
deriving DecidableEq, Repr

/-- Go `types.ReportItem`: one rule hit in an incoming report
(`Module`, `ErrorKey`, `TemplateData`). -/
structure ReportItem where
  module : String
  errorKey : String
  templateData : String
deriving DecidableEq, Repr

/-- One row of the `rule_hit` table:
`(org_id, cluster_id, rule_fqdn, error_key, template_data)`. -/
structure RuleHitRow where
  orgId : Nat
  clusterId : String
  ruleFqdn : String
  errorKey : String
  templateData : String
deriving DecidableEq, Repr

/-- One row of the `report` table (minus the cluster name, which is the
association-list key): `(org_id, report, reported_at, last_checked_at,
kafka_offset)`. -/
structure ReportRow where
  orgId : Nat
  report : String
  reportedAt : Nat
  lastCheckedAt : Nat
  kafkaOffset : Int
deriving DecidableEq, Repr

/-- The durable database state: the `report` table (keyed by cluster, its
unique key) and the `rule_hit` table. -/
structure DBState where
  reportTable : List (String × ReportRow)
  ruleHitTable : List RuleHitRow
deriving DecidableEq, Repr

/-- Go `DBStorage`'s mutable state: the database plus the in-memory
`clustersLastChecked` staleness cache (cluster name ↦ last accepted
`last_checked_at`). -/
structure StorageState where
  db : DBState
  clustersLastChecked : List (String × Nat)
deriving DecidableEq, Repr

/-- Errors surfaced by the write path: `types.ErrOldReport`, the
unsupported-driver error of `WriteReportForCluster`, and an underlying
database error propagated unchanged. -/
inductive WriteError where
  | errOldReport
  | unsupportedDriver
  | dbError
deriving DecidableEq, Repr

/-- Read-path error: `types.ItemNotFoundError` or a propagated driver error. -/
inductive ReadError where
  | itemNotFound
  | dbError
deriving DecidableEq, Repr

/-- Association-list lookup, the semantics of both a Go map read and of a
`SELECT ... WHERE cluster = $1` on the uniquely-keyed `report` table. -/
def lookupAssoc {α : Type} : List (String × α) → String → Option α
  | [], _ => none
  | (k, v) :: rest, c => if k = c then some v else lookupAssoc rest c

/-- Association-list update, the semantics of a Go map assignment
`m[k] = v`. -/
def insertAssoc {α : Type} : List (String × α) → String → α → List (String × α)
  | [], k, v => [(k, v)]
  | (k', v') :: rest, k, v =>
      if k' = k then (k, v) :: rest else (k', v') :: insertAssoc rest k v

/-- Whether a `rule_hit` row collides with an insert on the table's unique
key `(org_id, cluster_id, rule_fqdn, error_key)`. -/
def sameRuleHitKey (r h : RuleHitRow) : Prop :=
  r.orgId = h.orgId ∧ r.clusterId = h.clusterId ∧
    r.ruleFqdn = h.ruleFqdn ∧ r.errorKey = h.errorKey

instance (r h : RuleHitRow) : Decidable (sameRuleHitKey r h) := by
  unfold sameRuleHitKey; infer_instance

/-- `getRuleHitUpsertQuery` semantics: plain insert when the key is free;
on a key collision SQLite's `INSERT OR REPLACE` replaces the whole row,
while the Postgres statement `ON CONFLICT ... DO UPDATE SET
template_data = $4` overwrites `template_data` with the *fourth* bound
argument, which is the error key (the statement binds `template_data`
as `$5`). -/
def upsertRuleHit (driver : DBDriver) (table : List RuleHitRow)
    (h : RuleHitRow) : List RuleHitRow :=
  if table.any (fun r => decide (sameRuleHitKey r h)) then
    match driver with
    | .sqlite3 => table.filter (fun r => !decide (sameRuleHitKey r h)) ++ [h]
    | _ => table.map (fun r =>
        if sameRuleHitKey r h then { r with templateData := h.errorKey } else r)
  else
    table ++ [h]

/-- `getReportUpsertQuery` semantics: both the SQLite `INSERT OR REPLACE`
and the Postgres `ON CONFLICT (cluster) DO UPDATE` of every mutable column
replace the single row keyed by the cluster name (or insert it). -/
def upsertReportRow (table : List (String × ReportRow)) (cluster : String)
    (row : ReportRow) : List (String × ReportRow) :=
  insertAssoc table cluster row

/-- The `rule_hit` row bound by `tx.Exec(ruleUpsertQuery, orgID,
clusterName, rule.Module, rule.ErrorKey, string(rule.TemplateData))`. -/
def mkRuleHit (orgID : Nat) (clusterName : String) (r : ReportItem) :
    RuleHitRow :=
  ⟨orgID, clusterName, r.module, r.errorKey, r.templateData⟩

/-- `DBStorage.updateReport` (the in-transaction mutation): delete every
`rule_hit` row of `(org, cluster)`, upsert one `rule_hit` row per incoming
rule, then upsert the `report` row with `reported_at = now` and
`last_checked_at = lastCheckedTime`. -/
def updateReport (driver : DBDriver) (db : DBState) (orgID : Nat)
    (clusterName : String) (report : String) (rules : List ReportItem)
    (lastCheckedTime : Nat) (kafkaOffset : Int) (now : Nat) : DBState :=
  let hits := db.ruleHitTable.filter
    (fun h => !decide (h.orgId = orgID ∧ h.clusterId = clusterName))
  let hits := rules.foldl
    (fun acc r => upsertRuleHit driver acc (mkRuleHit orgID clusterName r))
    hits
  { reportTable :=
      upsertReportRow db.reportTable clusterName
        ⟨orgID, report, now, lastCheckedTime, kafkaOffset⟩,
    ruleHitTable := hits }

/-- The in-transaction staleness re-check of `WriteReportForCluster`:
`SELECT last_checked_at FROM report WHERE org_id = $1 AND cluster = $2 AND
last_checked_at > $3` returns at least one row. -/
def hasNewerReport (table : List (String × ReportRow)) (orgID : Nat)
    (clusterName : String) (t : Nat) : Bool :=
  table.any (fun p =>
    decide (p.1 = clusterName ∧ p.2.orgId = orgID ∧ t < p.2.lastCheckedAt))

/-- The driver check, transaction body and `finishTransaction` of
`DBStorage.WriteReportForCluster` (everything after the cache fast path).
The boolean oracles model `database/sql` failures: `queryOk` for the
in-transaction re-check query, `execOk` for the statements run by
`updateReport`, `commitOk` for `tx.Commit` inside `finishTransaction`.
After a successful `updateReport` the cache is written and the error
result is `nil` even if the commit then fails (`finishTransaction` only
logs a commit error, and the cache write happened before it). -/
def writeReportTx (driver : DBDriver)
    (queryOk execOk commitOk : Bool) (now : Nat) (s : StorageState)
    (orgID : Nat) (clusterName : String) (report : String)
    (rules : List ReportItem) (lastCheckedTime : Nat) (kafkaOffset : Int) :
    Except WriteError Unit × StorageState :=
  if driver ≠ .sqlite3 ∧ driver ≠ .postgres then
    (.error .unsupportedDriver, s)
  else if !queryOk then
    -- the re-check query failed: rollback, propagate the error
    (.error .dbError, s)
  else if hasNewerReport s.db.reportTable orgID clusterName lastCheckedTime then
    -- a more recent report exists: warn and discard (commit of an empty
    -- transaction; no state is touched either way)
    (.ok (), s)
  else if !execOk then
    -- some statement of updateReport failed: rollback, propagate
    (.error .dbError, s)
  else
    let db' := updateReport driver s.db orgID clusterName report rules
      lastCheckedTime kafkaOffset now
    let cache' := insertAssoc s.clustersLastChecked clusterName lastCheckedTime
    if commitOk then
      (.ok (), ⟨db', cache'⟩)
    else
      -- commit failed: finishTransaction only logs it; the transaction's
      -- mutations are lost but the cache write already happened and the
      -- caller still sees success
      (.ok (), ⟨s.db, cache'⟩)

/-- `DBStorage.WriteReportForCluster`: the cache fast path (reject when a
cached timestamp is not strictly older than `lastCheckedTime`, i.e. when
`!lastCheckedTime.After(oldLastChecked)`), then the transaction body. -/
def writeReportForCluster (driver : DBDriver)
    (queryOk execOk commitOk : Bool) (now : Nat) (s : StorageState)
    (orgID : Nat) (clusterName : String) (report : String)
    (rules : List ReportItem) (lastCheckedTime : Nat) (kafkaOffset : Int) :
    Except WriteError Unit × StorageState :=
  -- Skip writing the report if it isn't newer than a report
  -- that is already in the database for the same cluster.
  match lookupAssoc s.clustersLastChecked clusterName with
  | some oldLastChecked =>
      if oldLastChecked < lastCheckedTime then
        writeReportTx driver queryOk execOk commitOk now s orgID
          clusterName report rules lastCheckedTime kafkaOffset
      else
        (.error .errOldReport, s)
  | none =>
      writeReportTx driver queryOk execOk commitOk now s orgID
        clusterName report rules lastCheckedTime kafkaOffset

/-- The value produced by `parseTemplateData`: either a `json.RawMessage`
(the input bytes, validated as JSON) or the raw bytes as an untyped
fallback. Both constructors carry the input unchanged, because
`json.RawMessage.UnmarshalJSON` stores the input bytes verbatim. -/
inductive TemplateValue where
  | parsed : String → TemplateValue
  | rawBytes : String → TemplateValue
deriving DecidableEq, Repr

/-- The bytes carried by a `TemplateValue`. -/
def TemplateValue.payload : TemplateValue → String
  | .parsed d => d
  | .rawBytes d => d

/-- `parseTemplateData`: try `json.Unmarshal` into a `json.RawMessage`
(modelled by the abstract validity test `jsonValid`); on failure, log a
warning and return the input bytes unchanged. Total in either case. -/
def parseTemplateData (jsonValid : String → Bool)
    (templateData : String) : TemplateValue :=
  if jsonValid templateData then .parsed templateData
  else .rawBytes templateData

/-- `types.RuleOnReport` as assembled by `parseRuleRows`. -/
structure RuleOnReport where
  module : String
  errorKey : String
  templateData : TemplateValue
deriving DecidableEq, Repr

/-- `parseRuleRows`: scan each `rule_hit` row into a `RuleOnReport`,
running the template data through `parseTemplateData`. -/
def parseRuleRows (jsonValid : String → Bool) (rows : List RuleHitRow) :
    List RuleOnReport :=
  rows.map (fun h =>
    ⟨h.ruleFqdn, h.errorKey, parseTemplateData jsonValid h.templateData⟩)

/-- The row returned by `SELECT ... FROM report WHERE org_id = $1 AND
cluster = $2` on the uniquely-keyed `report` table. -/
def findReportRow (table : List (String × ReportRow)) (orgID : Nat)
    (clusterName : String) : Option ReportRow :=
  match table with
  | [] => none
  | (c, row) :: rest =>
      if c = clusterName ∧ row.orgId = orgID then some row
      else findReportRow rest orgID clusterName

/-- `DBStorage.ReadReportForCluster`: read `last_checked_at` for
`(org, cluster)` (not-found error if no row matches), then the
`rule_hit` rows of `(org, cluster)` through `parseRuleRows`. -/
def readReportForCluster (jsonValid : String → Bool) (db : DBState)
    (orgID : Nat) (clusterName : String) :
    Except ReadError (List RuleOnReport × Nat) :=
  match findReportRow db.reportTable orgID clusterName with
  | none => .error .itemNotFound
  | some row =>
      let hits := db.ruleHitTable.filter
        (fun h => decide (h.orgId = orgID ∧ h.clusterId = clusterName))
      .ok (parseRuleRows jsonValid hits, row.lastCheckedAt)

/-! ### Batch read-query construction (`storage.go`) -/

/-- `constructInClausule`: the `in` clause starts as `"$1"` and the loop
appends `",$i"` for `i = 2 .. howMany`. For `howMany = 0` the loop body
never runs and the result is still `"$1"`. -/
def constructInClausule (howMany : Nat) : String :=
  (List.range' 2 (howMany - 1)).foldl
    (fun inClausule i => inClausule ++ ",$" ++ toString i) "$1"

/-- `argsWithClusterNames`: one bound argument per cluster name. -/
def argsWithClusterNames (clusterNames : List String) : List String :=
  clusterNames

/-- The query text built by `ReadReportsForClusters` before it is executed
with the arguments from `argsWithClusterNames`. -/
def readReportsForClustersQuery (clusterNames : List String) : String :=
  "SELECT cluster, report FROM report WHERE cluster in (" ++
    constructInClausule clusterNames.length ++ ");"

/-- Number of `$n` placeholders occurring in a query text, counted as the
occurrences of the `$` sigil. -/
def countPlaceholders (query : String) : Nat :=
  query.toList.count '$'

/-! ### `rule_toggle.go` -/

/-- One row of the `cluster_rule_toggle` table. The three timestamps are
`sql.NullTime`, modelled as `Option Nat`. -/
structure ClusterRuleToggle where
  clusterId : String
  ruleId : String
  errorKey : String
  disabled : Int
  disabledAt : Option Nat
  enabledAt : Option Nat
  updatedAt : Option Nat
deriving DecidableEq, Repr

/-- The `INSERT ... ON CONFLICT (cluster_id, rule_id, error_key) DO
UPDATE` statement of `ToggleRuleForCluster`: replace the row with a
matching key, or insert a fresh one. -/
def upsertToggleRow (table : List ClusterRuleToggle)
    (clusterID ruleID errorKey : String) (newRow : ClusterRuleToggle) :
    List ClusterRuleToggle :=
  if table.any (fun r =>
      decide (r.clusterId = clusterID ∧ r.ruleId = ruleID ∧
        r.errorKey = errorKey)) then
    table.map (fun r =>
      if r.clusterId = clusterID ∧ r.ruleId = ruleID ∧ r.errorKey = errorKey
      then newRow else r)
  else
    table ++ [newRow]

/-- `DBStorage.ToggleRuleForCluster`: `RuleToggleDisable = 1` sets
`disabled_at = now`, `RuleToggleEnable = 0` sets `enabled_at = now`, any
other value returns the "Unexpected rule toggle value" error before any
statement is executed; otherwise the row is upserted on the key
`(cluster_id, rule_id, error_key)` with `updated_at = now`. -/
def toggleRuleForCluster (table : List ClusterRuleToggle)
    (clusterID ruleID errorKey : String) (ruleToggle : Int) (now : Nat) :
    Except String (List ClusterRuleToggle) :=
  let disabledAt : Option Nat :=
    if ruleToggle = 1 then some now else none
  let enabledAt : Option Nat :=
    if ruleToggle = 0 then some now else none
  if ruleToggle ≠ 1 ∧ ruleToggle ≠ 0 then
    .error "Unexpected rule toggle value"
  else
    .ok (upsertToggleRow table clusterID ruleID errorKey
      ⟨clusterID, ruleID, errorKey, ruleToggle, disabledAt, enabledAt, some now⟩)

/-- The rows matched by the `WHERE cluster_id = $1 AND rule_id = $2`
filter of `GetFromClusterRuleToggle` (no error-key condition). -/
def toggleRowsFor (table : List ClusterRuleToggle)
    (clusterID ruleID : String) : List ClusterRuleToggle :=
  table.filter (fun r => decide (r.clusterId = clusterID ∧ r.ruleId = ruleID))

/-- The sort key of `ORDER BY updated_at DESC`. -/
def updatedVal (r : ClusterRuleToggle) : Nat :=
  r.updatedAt.getD 0

/-- `ORDER BY updated_at DESC LIMIT 1`: a row whose `updated_at` is
maximal among the given rows (ties broken deterministically). -/
def pickLatestToggle : List ClusterRuleToggle → Option ClusterRuleToggle
  | [] => none
  | r :: rest =>
      match pickLatestToggle rest with
      | none => some r
      | some b => if updatedVal r < updatedVal b then some b else some r

/-- `DBStorage.GetFromClusterRuleToggle`: the row of `(cluster, rule)`
with the greatest `updated_at`; `sql.ErrNoRows` becomes
`types.ItemNotFoundError`. -/
def getFromClusterRuleToggle (table : List ClusterRuleToggle)
    (clusterID ruleID : String) : Except ReadError ClusterRuleToggle :=
  match pickLatestToggle (toggleRowsFor table clusterID ruleID) with
  | none => .error .itemNotFound
  | some r => .ok r

/-- The query text built by `GetTogglesForRules`: the rule identifiers are
joined into a quoted comma-separated list and spliced into the query via
`fmt.Sprintf`, so the identifiers themselves become query text. -/
def getTogglesForRulesQuery (rulesReport : List RuleOnReport) : String :=
  let ruleIDs := rulesReport.map (fun rule => rule.module)
  let whereInStatement := "'" ++ String.intercalate "','" ruleIDs ++ "'"
  "SELECT rule_id, disabled FROM cluster_rule_toggle WHERE cluster_id = $1 AND rule_id in (" ++
    whereInStatement ++ ")"

/-! ### `ListOfOrgs` (`storage.go`) -/

/-- Modelled from the spec: `types.ConvertDBError` lives in the `types`
package, which is not part of the sources under study; §7 of the spec says
read-path errors "propagate unchanged to the caller", so the conversion is
modelled as the identity on error text. -/
def convertDBError (e : String) : String := e

/-- `DBStorage.ListOfOrgs`. The argument is the outcome of the
`SELECT DISTINCT org_id FROM report ORDER BY org_id` query: either a query
error or a list of row-scan outcomes. A query error is returned (through
`convertDBError`); a row whose scan fails is only logged and skipped, and
the function still returns `nil` as its error. -/
def listOfOrgs (queryResult : Except String (List (Except String Nat))) :
    List Nat × Option String :=
  match queryResult with
  | .error e => ([], some (convertDBError e))
  | .ok rows =>
      (rows.foldl
        (fun orgs r =>
          match r with
          | .ok orgID => orgs ++ [orgID]
          | .error _ => orgs)
        [], none)

/-! ### Observables used by theorem statements -/

/-- Number of rows the `report` table holds for a given cluster name. -/
def countKey (table : List (String × ReportRow)) (clusterName : String) :
    Nat :=
  (table.filter (fun p => decide (p.1 = clusterName))).length

/-- The unique key of a `ReportItem` within one report:
`(Module, ErrorKey)`. -/
def ruleKey (r : ReportItem) : String × String :=
  (r.module, r.errorKey)

/-! ### Helper lemmas -/

@[simp] theorem lookupAssoc_nil {α : Type} (c : String) :
    lookupAssoc ([] : List (String × α)) c = none := rfl

@[simp] theorem lookupAssoc_cons {α : Type} (k c : String) (v : α)
    (rest : List (String × α)) :
    lookupAssoc ((k, v) :: rest) c =
      if k = c then some v else lookupAssoc rest c := rfl

@[simp] theorem insertAssoc_nil {α : Type} (k : String) (v : α) :
    insertAssoc ([] : List (String × α)) k v = [(k, v)] := rfl

theorem lookupAssoc_insertAssoc_self {α : Type}
    (m : List (String × α)) (k : String) (v : α) :
    lookupAssoc (insertAssoc m k v) k = some v := by
  induction m with
  | nil => simp [insertAssoc, lookupAssoc]
  | cons hd tl ih =>
      obtain ⟨k', v'⟩ := hd
      by_cases h : k' = k
      · simp [insertAssoc, h, lookupAssoc]
      · simp [insertAssoc, h, lookupAssoc, ih]

theorem countKey_insertAssoc (table : List (String × ReportRow))
    (clusterName : String) (row : ReportRow)
    (h : countKey table clusterName ≤ 1) :
    countKey (insertAssoc table clusterName row) clusterName = 1 := by
  induction table with
  | nil => simp [insertAssoc, countKey]
  | cons hd tl ih =>
      obtain ⟨k, v⟩ := hd
      by_cases hk : k = clusterName
      · subst hk
        simp only [countKey, List.filter, decide_True, List.length_cons] at h
        simp only [insertAssoc, if_pos rfl, countKey, List.filter,
          decide_True, List.length_cons]
        omega
      · simp only [countKey, List.filter, hk, decide_False] at h
        simp only [insertAssoc, if_neg hk, countKey, List.filter, hk,
          decide_False]
        exact ih h

theorem upsertRuleHit_of_no_conflict (driver : DBDriver)
    (table : List RuleHitRow) (h : RuleHitRow)
    (hfree : (table.any (fun r => decide (sameRuleHitKey r h))) = false) :
    upsertRuleHit driver table h = table ++ [h] := by
  unfold upsertRuleHit
  rw [if_neg]
  simp [hfree]

theorem upsertRuleHit_key_closed (driver : DBDriver) (orgID : Nat)
    (clusterName : String) (table : List RuleHitRow) (h : RuleHitRow)
    (htable : ∀ r ∈ table, r.orgId = orgID ∧ r.clusterId = clusterName)
    (hh : h.orgId = orgID ∧ h.clusterId = clusterName) :
    ∀ r ∈ upsertRuleHit driver table h,
      r.orgId = orgID ∧ r.clusterId = clusterName := by
  intro r hr
  unfold upsertRuleHit at hr
  by_cases hany : (table.any (fun r => decide (sameRuleHitKey r h))) = true
  · rw [if_pos hany] at hr
    cases driver with
    | sqlite3 =>
        rcases List.mem_append.mp hr with hr' | hr'
        · exact htable r (List.mem_of_mem_filter hr')
        · simp at hr'
          exact hr' ▸ hh
    | postgres =>
        obtain ⟨a, ha, hfa⟩ := List.mem_map.mp hr
        by_cases hkey : sameRuleHitKey a h
        · rw [if_pos hkey] at hfa
          have := htable a ha
          exact hfa ▸ ⟨this.1, this.2⟩
        · rw [if_neg hkey] at hfa
          exact hfa ▸ htable a ha
    | other =>
        obtain ⟨a, ha, hfa⟩ := List.mem_map.mp hr
        by_cases hkey : sameRuleHitKey a h
        · rw [if_pos hkey] at hfa
          have := htable a ha
          exact hfa ▸ ⟨this.1, this.2⟩
        · rw [if_neg hkey] at hfa
          exact hfa ▸ htable a ha
  · rw [if_neg hany] at hr
    rcases List.mem_append.mp hr with hr' | hr'
    · exact htable r hr'
    · simp at hr'
      exact hr' ▸ hh

theorem foldl_upsert_key_closed (driver : DBDriver) (orgID : Nat)
    (clusterName : String) (rules : List ReportItem) (acc : List RuleHitRow)
    (hacc : ∀ r ∈ acc, r.orgId = orgID ∧ r.clusterId = clusterName) :
    ∀ r ∈ rules.foldl
        (fun a ri => upsertRuleHit driver a (mkRuleHit orgID clusterName ri))
        acc,
      r.orgId = orgID ∧ r.clusterId = clusterName := by
  induction rules generalizing acc with
  | nil => exact hacc
  | cons ri rest ih =>
      intro r hr
      exact ih _
        (upsertRuleHit_key_closed driver orgID clusterName acc
          (mkRuleHit orgID clusterName ri) hacc ⟨rfl, rfl⟩) r hr

theorem foldl_upsert_of_fresh (driver : DBDriver) (orgID : Nat)
    (clusterName : String) (rules : List ReportItem) (acc : List RuleHitRow)
    (hacc : ∀ r ∈ acc, ∀ ri ∈ rules,
      ¬sameRuleHitKey r (mkRuleHit orgID clusterName ri))
    (hnd : (rules.map ruleKey).Nodup) :
    rules.foldl
        (fun a ri => upsertRuleHit driver a (mkRuleHit orgID clusterName ri))
        acc =
      acc ++ rules.map (mkRuleHit orgID clusterName) := by
  induction rules generalizing acc with
  | nil => simp
  | cons ri rest ih =>
      simp only [List.map_cons, List.nodup_cons] at hnd
      have hfree : (acc.any (fun r =>
          decide (sameRuleHitKey r (mkRuleHit orgID clusterName ri)))) = false := by
        rw [List.any_eq_false]
        intro r hr
        simp only [decide_eq_true_eq]
        exact hacc r hr ri (List.mem_cons_self _ _)
      have hstep :
          upsertRuleHit driver acc (mkRuleHit orgID clusterName ri) =
            acc ++ [mkRuleHit orgID clusterName ri] :=
        upsertRuleHit_of_no_conflict driver acc _ hfree
      simp only [List.foldl_cons, hstep]
      have hacc' : ∀ r ∈ acc ++ [mkRuleHit orgID clusterName ri],
          ∀ rj ∈ rest, ¬sameRuleHitKey r (mkRuleHit orgID clusterName rj) := by
        intro r hr rj hrj
        rcases List.mem_append.mp hr with hr' | hr'
        · exact hacc r hr' rj (List.mem_cons_of_mem _ hrj)
        · simp at hr'
          subst hr'
          intro hsame
          obtain ⟨_, _, hm, hk⟩ := hsame
          simp only [mkRuleHit] at hm hk
          have : ruleKey ri ∈ rest.map ruleKey := by
            have : ruleKey ri = ruleKey rj := by simp [ruleKey, hm, hk]
            rw [this]
            exact List.mem_map_of_mem ruleKey hrj
          exact hnd.1 this
      rw [ih _ hacc' hnd.2]
      simp

theorem listOfOrgs_foldl (rows : List (Except String Nat)) (acc : List Nat) :
    rows.foldl
      (fun orgs r =>
        match r with
        | .ok orgID => orgs ++ [orgID]
        | .error _ => orgs)
      acc = acc ++ rows.filterMap Except.toOption := by
  induction rows generalizing acc with
  | nil => simp
  | cons r rest ih => cases r <;> simp [ih, Except.toOption]

theorem pickLatestToggle_eq_none (l : List ClusterRuleToggle) :
    pickLatestToggle l = none ↔ l = [] := by
  cases l with
  | nil => simp [pickLatestToggle]
  | cons a rest =>
      cases hrest : pickLatestToggle rest with
      | none => simp [pickLatestToggle, hrest]
      | some b =>
          simp only [pickLatestToggle, hrest]
          constructor
          · intro h
            split at h <;> cases h
          · intro h
            cases h

theorem pickLatestToggle_mem_max (l : List ClusterRuleToggle)
    (r : ClusterRuleToggle) (h : pickLatestToggle l = some r) :
    r ∈ l ∧ ∀ r' ∈ l, updatedVal r' ≤ updatedVal r := by
  induction l generalizing r with
  | nil => cases h
  | cons a rest ih =>
      unfold pickLatestToggle at h
      cases hrest : pickLatestToggle rest with
      | none =>
          rw [hrest] at h
          dsimp only at h
          cases h
          have hnil : rest = [] := (pickLatestToggle_eq_none rest).mp hrest
          subst hnil
          exact ⟨List.mem_cons_self _ _, by intro r' hr'; simp at hr'; simp [hr']⟩
      | some b =>
          rw [hrest] at h
          dsimp only at h
          obtain ⟨hbm, hbmax⟩ := ih b hrest
          by_cases hlt : updatedVal a < updatedVal b
          · rw [if_pos hlt] at h
            cases h
            refine ⟨List.mem_cons_of_mem _ hbm, ?_⟩
            intro r' hr'
            rcases List.mem_cons.mp hr' with h' | h'
            · exact h' ▸ le_of_lt hlt
            · exact hbmax r' h'
          · rw [if_neg hlt] at h
            cases h
            refine ⟨List.mem_cons_self _ _, ?_⟩
            intro r' hr'
            rcases List.mem_cons.mp hr' with h' | h'
            · exact h' ▸ le_refl _
            · exact le_trans (hbmax r' h') (not_lt.mp hlt)

theorem writeReport_from_empty (driver : DBDriver)
    (hdriver : driver = .sqlite3 ∨ driver = .postgres) (now orgID : Nat)
    (clusterName report : String) (rules : List ReportItem) (t : Nat)
    (off : Int) :
    writeReportForCluster driver true true true now ⟨⟨[], []⟩, []⟩ orgID
        clusterName report rules t off =
      (.ok (), ⟨⟨[(clusterName, ⟨orgID, report, now, t, off⟩)],
        rules.foldl
          (fun acc r => upsertRuleHit driver acc (mkRuleHit orgID clusterName r))
          []⟩,
        [(clusterName, t)]⟩) := by
  rcases hdriver with h | h <;> subst h <;>
    simp [writeReportForCluster, writeReportTx, hasNewerReport, updateReport,
      upsertReportRow]

theorem writeReport_over_state (driver : DBDriver)
    (hdriver : driver = .sqlite3 ∨ driver = .postgres) (now2 orgID : Nat)
    (clusterName report2 : String) (rules2 : List ReportItem)
    (t1 t2 : Nat) (off2 : Int) (row1 : ReportRow) (H1 : List RuleHitRow)
    (hlt : t1 < t2)
    (hH1 : ∀ r ∈ H1, r.orgId = orgID ∧ r.clusterId = clusterName)
    (hnd : (rules2.map ruleKey).Nodup)
    (hrow : row1.lastCheckedAt = t1) :
    writeReportForCluster driver true true true now2
        ⟨⟨[(clusterName, row1)], H1⟩, [(clusterName, t1)]⟩ orgID clusterName
        report2 rules2 t2 off2 =
      (.ok (), ⟨⟨[(clusterName, ⟨orgID, report2, now2, t2, off2⟩)],
        rules2.map (mkRuleHit orgID clusterName)⟩, [(clusterName, t2)]⟩) := by
  have hnewer :
      hasNewerReport [(clusterName, row1)] orgID clusterName t2 = false := by
    simp only [hasNewerReport, List.any_cons, List.any_nil, Bool.or_false,
      decide_eq_false_iff_not]
    intro hcontra
    omega
  have hfilter : H1.filter
      (fun h => !decide (h.orgId = orgID) || !decide (h.clusterId = clusterName)) =
        [] := by
    rw [List.filter_eq_nil_iff]
    intro a ha
    simp [(hH1 a ha).1, (hH1 a ha).2]
  have hfold := foldl_upsert_of_fresh driver orgID clusterName rules2 []
    (by intro r hr; cases hr) hnd
  rcases hdriver with h | h <;> subst h <;>
    simp [writeReportForCluster, writeReportTx, hnewer, updateReport, hfilter,
      hfold, upsertReportRow, insertAssoc, hlt]

theorem readReport_of_exact (jsonValid : String → Bool) (orgID now2 t2 : Nat)
    (clusterName report2 : String) (rules2 : List ReportItem) (off2 : Int) :
    readReportForCluster jsonValid
        ⟨[(clusterName, ⟨orgID, report2, now2, t2, off2⟩)],
          rules2.map (mkRuleHit orgID clusterName)⟩ orgID clusterName =
      .ok (rules2.map (fun r =>
        ⟨r.module, r.errorKey, parseTemplateData jsonValid r.templateData⟩),
        t2) := by
  have hfilter : (rules2.map (mkRuleHit orgID clusterName)).filter
      (fun h => decide (h.orgId = orgID) && decide (h.clusterId = clusterName)) =
        rules2.map (mkRuleHit orgID clusterName) := by
    rw [List.filter_eq_self]
    intro a ha
    obtain ⟨r, _, hr⟩ := List.mem_map.mp ha
    subst hr
    simp [mkRuleHit]
  simp [readReportForCluster, findReportRow, hfilter, parseRuleRows,
    List.map_map, mkRuleHit, Function.comp]

theorem mem_upsertToggleRow (table : List ClusterRuleToggle)
    (clusterID ruleID errorKey : String) (newRow : ClusterRuleToggle) :
    newRow ∈ upsertToggleRow table clusterID ruleID errorKey newRow := by
  unfold upsertToggleRow
  by_cases hany : (table.any (fun r =>
      decide (r.clusterId = clusterID ∧ r.ruleId = ruleID ∧
        r.errorKey = errorKey))) = true
  · rw [if_pos hany]
    obtain ⟨r, hr, hkey⟩ := List.any_eq_true.mp hany
    simp only [decide_eq_true_eq] at hkey
    exact List.mem_map.mpr ⟨r, hr, if_pos hkey⟩
  · rw [if_neg hany]
    simp

/-! ### Claim theorems: the report write path -/

/-- C1: starting from a fresh storage, a successful `WriteReportForCluster`
at time `t1` followed by a successful one at `t2 > t1` (same cluster, same
org) leaves `ReadReportForCluster` returning exactly the rule hits of the
second write (with `last_checked_at = t2`); any rule hit of the first
write whose `(module, error key)` is not in the second write is absent
from the read result. -/
theorem write_write_read_reflects_latest (driver : DBDriver)
    (jsonValid : String → Bool) (orgID : Nat)
    (clusterName report1 report2 : String) (rules1 rules2 : List ReportItem)
    (t1 t2 now1 now2 : Nat) (off1 off2 : Int)
    (hdriver : driver = .sqlite3 ∨ driver = .postgres) (hlt : t1 < t2)
    (hnd : (rules2.map ruleKey).Nodup) :
    (writeReportForCluster driver true true true now1 ⟨⟨[], []⟩, []⟩ orgID
        clusterName report1 rules1 t1 off1).1 = .ok () ∧
    (writeReportForCluster driver true true true now2
        (writeReportForCluster driver true true true now1 ⟨⟨[], []⟩, []⟩
          orgID clusterName report1 rules1 t1 off1).2 orgID clusterName
        report2 rules2 t2 off2).1 = .ok () ∧
    readReportForCluster jsonValid
        (writeReportForCluster driver true true true now2
          (writeReportForCluster driver true true true now1 ⟨⟨[], []⟩, []⟩
            orgID clusterName report1 rules1 t1 off1).2 orgID clusterName
          report2 rules2 t2 off2).2.db orgID clusterName =
      .ok (rules2.map (fun r =>
        ⟨r.module, r.errorKey, parseTemplateData jsonValid r.templateData⟩),
        t2) ∧
    (∀ hits t, readReportForCluster jsonValid
        (writeReportForCluster driver true true true now2
          (writeReportForCluster driver true true true now1 ⟨⟨[], []⟩, []⟩
            orgID clusterName report1 rules1 t1 off1).2 orgID clusterName
          report2 rules2 t2 off2).2.db orgID clusterName = .ok (hits, t) →
      ∀ r1 ∈ rules1, ruleKey r1 ∉ rules2.map ruleKey →
        ∀ hit ∈ hits,
          ¬(hit.module = r1.module ∧ hit.errorKey = r1.errorKey)) := by
  have h1 := writeReport_from_empty driver hdriver now1 orgID clusterName
    report1 rules1 t1 off1
  have hH1 : ∀ r ∈ rules1.foldl
      (fun acc r => upsertRuleHit driver acc (mkRuleHit orgID clusterName r))
      [],
      r.orgId = orgID ∧ r.clusterId = clusterName :=
    foldl_upsert_key_closed driver orgID clusterName rules1 []
      (by intro r hr; cases hr)
  have h2 := writeReport_over_state driver hdriver now2 orgID clusterName
    report2 rules2 t1 t2 off2 ⟨orgID, report1, now1, t1, off1⟩ _ hlt hH1 hnd
    rfl
  have hread := readReport_of_exact jsonValid orgID now2 t2 clusterName
    report2 rules2 off2
  refine ⟨by rw [h1], by rw [h1, h2], by rw [h1, h2]; exact hread, ?_⟩
  intro hits t hr
  rw [h1, h2, hread] at hr
  have hhits : hits = rules2.map (fun r =>
      ⟨r.module, r.errorKey, parseTemplateData jsonValid r.templateData⟩) := by
    have := congrArg (fun x : Except ReadError (List RuleOnReport × Nat) =>
      match x with
      | .ok p => p.1
      | .error _ => []) hr
    simpa using this.symm
  subst hhits
  intro r1 _ hnotin hit hhit ⟨hm, hk⟩
  obtain ⟨r2, hr2, hr2eq⟩ := List.mem_map.mp hhit
  apply hnotin
  have : ruleKey r1 = ruleKey r2 := by
    subst hr2eq
    simp only [ruleKey]
    simp at hm hk
    rw [hm, hk]
  rw [this]
  exact List.mem_map_of_mem ruleKey hr2

/-- C2: (a) starting from a fresh storage, a write at `t1` followed by a
write at `t0 ≤ t1` on the same cluster returns `ErrOldReport` and leaves
the whole state (report row and rule hits) unchanged; (b) whenever the
staleness cache holds an entry `≥ t0` for the cluster, the write returns
`ErrOldReport` with the database untouched; (c) when the staleness passes
the cache (entry absent or `< t0`) and is detected only by the
in-transaction re-check, the write returns success with no mutation. -/
theorem stale_write_rejected_or_ignored :
    (∀ (driver : DBDriver), driver = .sqlite3 ∨ driver = .postgres →
      ∀ (now1 now0 orgID : Nat) (clusterName report1 report0 : String)
        (rules1 rules0 : List ReportItem) (t1 t0 : Nat) (off1 off0 : Int),
        t0 ≤ t1 →
        (writeReportForCluster driver true true true now1 ⟨⟨[], []⟩, []⟩
            orgID clusterName report1 rules1 t1 off1).1 = .ok () ∧
        writeReportForCluster driver true true true now0
            (writeReportForCluster driver true true true now1 ⟨⟨[], []⟩, []⟩
              orgID clusterName report1 rules1 t1 off1).2 orgID clusterName
            report0 rules0 t0 off0 =
          (.error .errOldReport,
            (writeReportForCluster driver true true true now1 ⟨⟨[], []⟩, []⟩
              orgID clusterName report1 rules1 t1 off1).2)) ∧
    (∀ (driver : DBDriver) (queryOk execOk commitOk : Bool) (now : Nat)
        (s : StorageState) (orgID : Nat) (clusterName report : String)
        (rules : List ReportItem) (t0 : Nat) (off : Int) (v : Nat),
        lookupAssoc s.clustersLastChecked clusterName = some v → t0 ≤ v →
        writeReportForCluster driver queryOk execOk commitOk now s orgID
          clusterName report rules t0 off = (.error .errOldReport, s)) ∧
    (∀ (driver : DBDriver), driver = .sqlite3 ∨ driver = .postgres →
      ∀ (execOk commitOk : Bool) (now : Nat) (s : StorageState) (orgID : Nat)
        (clusterName report : String) (rules : List ReportItem) (t0 : Nat)
        (off : Int),
        (lookupAssoc s.clustersLastChecked clusterName = none ∨
          ∃ v, lookupAssoc s.clustersLastChecked clusterName = some v ∧
            v < t0) →
        hasNewerReport s.db.reportTable orgID clusterName t0 = true →
        writeReportForCluster driver true execOk commitOk now s orgID
          clusterName report rules t0 off = (.ok (), s)) := by
  refine ⟨?_, ?_, ?_⟩
  · intro driver hdriver now1 now0 orgID clusterName report1 report0 rules1
      rules0 t1 t0 off1 off0 hle
    have h1 := writeReport_from_empty driver hdriver now1 orgID clusterName
      report1 rules1 t1 off1
    refine ⟨by rw [h1], ?_⟩
    rw [h1]
    simp [writeReportForCluster, show ¬(t1 < t0) by omega]
  · intro driver queryOk execOk commitOk now s orgID clusterName report rules
      t0 off v hv hle
    unfold writeReportForCluster
    rw [hv]
    simp [show ¬(v < t0) by omega]
  · intro driver hdriver execOk commitOk now s orgID clusterName report rules
      t0 off hpass hnewer
    have htx : writeReportTx driver true execOk commitOk now s orgID
        clusterName report rules t0 off = (.ok (), s) := by
      rcases hdriver with h | h <;> subst h <;>
        simp [writeReportTx, hnewer]
    unfold writeReportForCluster
    rcases hpass with hnone | ⟨v, hsome, hvlt⟩
    · rw [hnone]
      exact htx
    · rw [hsome]
      simpa [hvlt] using htx

/-- Witness for C2 at concrete inputs: (a) fresh storage, `t1 = 5` then
`t0 = 5`; (b) a state whose cache maps `"c"` to `9` with `t0 = 9`; (c) a
state with no cache entry but a stored row at time `5`, written at
`t0 = 3`. -/
theorem stale_write_rejected_or_ignored_witness :
    ((writeReportForCluster .postgres true true true 10 ⟨⟨[], []⟩, []⟩ 1 "c"
        "r1" [] 5 0).1 = .ok () ∧
      writeReportForCluster .postgres true true true 12
          (writeReportForCluster .postgres true true true 10 ⟨⟨[], []⟩, []⟩ 1
            "c" "r1" [] 5 0).2 1 "c" "r0" [] 5 0 =
        (.error .errOldReport,
          (writeReportForCluster .postgres true true true 10 ⟨⟨[], []⟩, []⟩ 1
            "c" "r1" [] 5 0).2)) ∧
    writeReportForCluster .sqlite3 true true true 12
        ⟨⟨[], []⟩, [("c", 9)]⟩ 1 "c" "r0" [] 9 0 =
      (.error .errOldReport, ⟨⟨[], []⟩, [("c", 9)]⟩) ∧
    writeReportForCluster .postgres true true true 12
        ⟨⟨[("c", ⟨1, "r1", 0, 5, 0⟩)], []⟩, []⟩ 1 "c" "r0" [] 3 0 =
      (.ok (), ⟨⟨[("c", ⟨1, "r1", 0, 5, 0⟩)], []⟩, []⟩) :=
  ⟨stale_write_rejected_or_ignored.1 .postgres (Or.inr rfl) 10 12 1 "c" "r1"
      "r0" [] [] 5 5 0 0 (by decide),
   stale_write_rejected_or_ignored.2.1 .sqlite3 true true true 12
      ⟨⟨[], []⟩, [("c", 9)]⟩ 1 "c" "r0" [] 9 0 9 (by decide) (by decide),
   stale_write_rejected_or_ignored.2.2 .postgres (Or.inr rfl) true true 12
      ⟨⟨[("c", ⟨1, "r1", 0, 5, 0⟩)], []⟩, []⟩ 1 "c" "r0" [] 3 0
      (Or.inl (by decide)) (by decide)⟩

/-- C3 counterexample: with no staleness-cache entry for cluster `"c"` and
a stored report whose `last_checked_at` equals the incoming time `5`, a
repeated write with the equal timestamp is *not* rejected as stale: it
returns success and mutates the state (the row is re-applied with a fresh
`reported_at` and the cache entry is created), because the in-transaction
re-check only tests strict `last_checked_at > $3`. -/
theorem equal_timestamp_reapplied_on_tx_path :
    (writeReportForCluster .postgres true true true 7
        ⟨⟨[("c", ⟨1, "r", 0, 5, 0⟩)], []⟩, []⟩ 1 "c" "r" [] 5 0).1 =
      .ok () ∧
    (writeReportForCluster .postgres true true true 7
        ⟨⟨[("c", ⟨1, "r", 0, 5, 0⟩)], []⟩, []⟩ 1 "c" "r" [] 5 0).2 ≠
      ⟨⟨[("c", ⟨1, "r", 0, 5, 0⟩)], []⟩, []⟩ := by
  exact ⟨rfl, by decide⟩

/-- C3 amended: a second write with an equal timestamp is rejected as
stale only on the cache fast path (cache entry equal to `t`); on the
in-transaction path (cache entry absent) the strict re-check lets the
equal timestamp through and the write is re-applied — it overwrites the
report row (fresh `reported_at = now`) and records the cache entry, still
leaving exactly one report row for the cluster (no duplicate rows). -/
theorem equal_timestamp_stale_handling :
    (∀ (driver : DBDriver) (queryOk execOk commitOk : Bool) (now : Nat)
        (s : StorageState) (orgID : Nat) (clusterName report : String)
        (rules : List ReportItem) (t : Nat) (off : Int),
        lookupAssoc s.clustersLastChecked clusterName = some t →
        writeReportForCluster driver queryOk execOk commitOk now s orgID
          clusterName report rules t off = (.error .errOldReport, s)) ∧
    (∀ (driver : DBDriver), driver = .sqlite3 ∨ driver = .postgres →
      ∀ (now : Nat) (s : StorageState) (orgID : Nat)
        (clusterName report : String) (rules : List ReportItem) (t : Nat)
        (off : Int),
        lookupAssoc s.clustersLastChecked clusterName = none →
        (∀ p ∈ s.db.reportTable, p.1 = clusterName → p.2.orgId = orgID →
          p.2.lastCheckedAt ≤ t) →
        countKey s.db.reportTable clusterName ≤ 1 →
        (writeReportForCluster driver true true true now s orgID clusterName
            report rules t off).1 = .ok () ∧
        lookupAssoc (writeReportForCluster driver true true true now s orgID
            clusterName report rules t off).2.db.reportTable clusterName =
          some ⟨orgID, report, now, t, off⟩ ∧
        countKey (writeReportForCluster driver true true true now s orgID
            clusterName report rules t off).2.db.reportTable clusterName =
          1 ∧
        lookupAssoc (writeReportForCluster driver true true true now s orgID
            clusterName report rules t off).2.clustersLastChecked
          clusterName = some t) := by
  refine ⟨?_, ?_⟩
  · intro driver queryOk execOk commitOk now s orgID clusterName report rules
      t off hsome
    unfold writeReportForCluster
    rw [hsome]
    simp
  · intro driver hdriver now s orgID clusterName report rules t off hnone
      hbound hcount
    have hnewer :
        hasNewerReport s.db.reportTable orgID clusterName t = false := by
      rw [hasNewerReport, List.any_eq_false]
      intro p hp
      simp only [decide_eq_true_eq, not_and]
      intro h1 h2
      have := hbound p hp h1 h2
      omega
    have hw : writeReportForCluster driver true true true now s orgID
        clusterName report rules t off =
          (.ok (), ⟨updateReport driver s.db orgID clusterName report rules t
            off now,
            insertAssoc s.clustersLastChecked clusterName t⟩) := by
      unfold writeReportForCluster
      rw [hnone]
      rcases hdriver with h | h <;> subst h <;>
        simp [writeReportTx, hnewer]
    rw [hw]
    refine ⟨rfl, ?_, ?_, lookupAssoc_insertAssoc_self _ _ _⟩
    · simp only [updateReport, upsertReportRow]
      exact lookupAssoc_insertAssoc_self _ _ _
    · simp only [updateReport, upsertReportRow]
      exact countKey_insertAssoc _ _ _ hcount

/-- Witness for C3's amended statement: the fast path at a cache entry
equal to `5`, and the in-transaction path re-applying the equal-timestamp
write on a concrete one-row state. -/
theorem equal_timestamp_stale_handling_witness :
    writeReportForCluster .postgres true true true 7
        ⟨⟨[("c", ⟨1, "r", 0, 5, 0⟩)], []⟩, [("c", 5)]⟩ 1 "c" "r" [] 5 0 =
      (.error .errOldReport,
        ⟨⟨[("c", ⟨1, "r", 0, 5, 0⟩)], []⟩, [("c", 5)]⟩) ∧
    ((writeReportForCluster .postgres true true true 7
        ⟨⟨[("c", ⟨1, "r", 0, 5, 0⟩)], []⟩, []⟩ 1 "c" "r" [] 5 0).1 =
      .ok () ∧
    lookupAssoc (writeReportForCluster .postgres true true true 7
        ⟨⟨[("c", ⟨1, "r", 0, 5, 0⟩)], []⟩, []⟩ 1 "c" "r" [] 5
        0).2.db.reportTable "c" = some ⟨1, "r", 7, 5, 0⟩ ∧
    countKey (writeReportForCluster .postgres true true true 7
        ⟨⟨[("c", ⟨1, "r", 0, 5, 0⟩)], []⟩, []⟩ 1 "c" "r" [] 5
        0).2.db.reportTable "c" = 1 ∧
    lookupAssoc (writeReportForCluster .postgres true true true 7
        ⟨⟨[("c", ⟨1, "r", 0, 5, 0⟩)], []⟩, []⟩ 1 "c" "r" [] 5
        0).2.clustersLastChecked "c" = some 5) :=
  ⟨equal_timestamp_stale_handling.1 .postgres true true true 7
      ⟨⟨[("c", ⟨1, "r", 0, 5, 0⟩)], []⟩, [("c", 5)]⟩ 1 "c" "r" [] 5 0
      (by decide),
   equal_timestamp_stale_handling.2 .postgres (Or.inr rfl) 7
      ⟨⟨[("c", ⟨1, "r", 0, 5, 0⟩)], []⟩, []⟩ 1 "c" "r" [] 5 0 (by decide)
      (by decide) (by decide)⟩

/-- C4 counterexample: on a fresh store with a failing commit
(`commitOk = false`), the write still returns success, the database is
left unmutated (the transaction is lost), yet the staleness cache *was*
updated to the new checked-at time — contradicting "the cache is not
updated ... when the commit itself fails". -/
theorem cache_updated_despite_commit_failure :
    (writeReportForCluster .postgres true true false 7 ⟨⟨[], []⟩, []⟩ 1 "c"
        "r" [] 5 0).1 = .ok () ∧
    (writeReportForCluster .postgres true true false 7 ⟨⟨[], []⟩, []⟩ 1 "c"
        "r" [] 5 0).2.db = ⟨[], []⟩ ∧
    (writeReportForCluster .postgres true true false 7 ⟨⟨[], []⟩, []⟩ 1 "c"
        "r" [] 5 0).2.clustersLastChecked = [("c", 5)] :=
  ⟨rfl, rfl, rfl⟩

/-- C4 amended: the staleness cache entry is written exactly when the
in-transaction mutation (`updateReport`) runs and succeeds; it is not
updated on the cache fast-path rejection, on a failed re-check query, on
the silent no-op path, or on a rollback caused by a failed statement — but
the write happens *before* the commit, so it also happens when the commit
itself fails (for any `commitOk`). -/
theorem cache_update_characterization (driver : DBDriver)
    (queryOk execOk commitOk : Bool) (now : Nat) (s : StorageState)
    (orgID : Nat) (clusterName report : String) (rules : List ReportItem)
    (t : Nat) (off : Int)
    (hdriver : driver = .sqlite3 ∨ driver = .postgres) :
    (∀ v, lookupAssoc s.clustersLastChecked clusterName = some v → ¬v < t →
      writeReportForCluster driver queryOk execOk commitOk now s orgID
        clusterName report rules t off = (.error .errOldReport, s)) ∧
    ((lookupAssoc s.clustersLastChecked clusterName = none ∨
        ∃ v, lookupAssoc s.clustersLastChecked clusterName = some v ∧
          v < t) →
      (queryOk = false →
        writeReportForCluster driver queryOk execOk commitOk now s orgID
          clusterName report rules t off = (.error .dbError, s)) ∧
      (queryOk = true →
        hasNewerReport s.db.reportTable orgID clusterName t = true →
        writeReportForCluster driver queryOk execOk commitOk now s orgID
          clusterName report rules t off = (.ok (), s)) ∧
      (queryOk = true →
        hasNewerReport s.db.reportTable orgID clusterName t = false →
        execOk = false →
        writeReportForCluster driver queryOk execOk commitOk now s orgID
          clusterName report rules t off = (.error .dbError, s)) ∧
      (queryOk = true →
        hasNewerReport s.db.reportTable orgID clusterName t = false →
        execOk = true →
        (writeReportForCluster driver queryOk execOk commitOk now s orgID
            clusterName report rules t off).2.clustersLastChecked =
          insertAssoc s.clustersLastChecked clusterName t)) := by
  constructor
  · intro v hv hnotlt
    unfold writeReportForCluster
    rw [hv]
    simp [hnotlt]
  · intro hpass
    have hred : writeReportForCluster driver queryOk execOk commitOk now s
        orgID clusterName report rules t off =
          writeReportTx driver queryOk execOk commitOk now s orgID
            clusterName report rules t off := by
      unfold writeReportForCluster
      rcases hpass with hnone | ⟨v, hsome, hvlt⟩
      · rw [hnone]
      · rw [hsome]
        simp [hvlt]
    rw [hred]
    refine ⟨?_, ?_, ?_, ?_⟩
    · intro hq
      subst hq
      rcases hdriver with h | h <;> subst h <;> simp [writeReportTx]
    · intro hq hnewer
      subst hq
      rcases hdriver with h | h <;> subst h <;> simp [writeReportTx, hnewer]
    · intro hq hnewer he
      subst hq; subst he
      rcases hdriver with h | h <;> subst h <;> simp [writeReportTx, hnewer]
    · intro hq hnewer he
      subst hq; subst he
      rcases hdriver with h | h <;> subst h <;>
        cases commitOk <;> simp [writeReportTx, hnewer]

/-- Witness for C4's amended statement: on a fresh store (cache passes,
re-check finds nothing newer) with `commitOk = false`, the cache ends up
holding the new entry. -/
theorem cache_update_characterization_witness :
    (writeReportForCluster .postgres true true false 7 ⟨⟨[], []⟩, []⟩ 1 "c"
        "r" [] 5 0).2.clustersLastChecked = insertAssoc [] "c" 5 :=
  ((cache_update_characterization .postgres true true false 7 ⟨⟨[], []⟩, []⟩
      1 "c" "r" [] 5 0 (Or.inr rfl)).2 (Or.inl (by decide))).2.2.2 rfl
    (by decide) rfl

/-- Witness for C1: two concrete writes (times 1 then 2) on cluster `"c"`,
then a read returning exactly the second write's single rule hit. -/
theorem write_write_read_reflects_latest_witness :
    readReportForCluster (fun _ => false)
        (writeReportForCluster .postgres true true true 11
          (writeReportForCluster .postgres true true true 10 ⟨⟨[], []⟩, []⟩ 1
            "c" "r1" [⟨"m1", "k1", "d1"⟩] 1 0).2 1 "c" "r2"
          [⟨"m2", "k2", "d2"⟩] 2 0).2.db 1 "c" =
      .ok ([⟨"m2", "k2", .rawBytes "d2"⟩], 2) := by
  have h := write_write_read_reflects_latest .postgres (fun _ => false) 1 "c"
    "r1" "r2" [⟨"m1", "k1", "d1"⟩] [⟨"m2", "k2", "d2"⟩] 1 2 10 11 0 0
    (Or.inr rfl) (by decide) (by decide)
  exact h.2.2.1

/-! ### Claim theorems: query construction, parsing, toggles, org listing -/

/-- C5: `readReportsForClusters` on an empty cluster list does not return
an empty mapping without querying; the code always builds and executes the
query, and for zero clusters the built query text contains the placeholder
`$1` while the bound-argument list is empty — a placeholder with no
corresponding argument. -/
theorem empty_cluster_list_builds_dangling_placeholder :
    readReportsForClustersQuery [] =
      "SELECT cluster, report FROM report WHERE cluster in ($1);" ∧
    countPlaceholders (readReportsForClustersQuery []) = 1 ∧
    argsWithClusterNames [] = [] := by
  refine ⟨rfl, ?_, rfl⟩
  decide

/-- C6: the query text built by `GetTogglesForRules` interpolates the rule
identifiers, so two rule lists of equal length but different content
produce different query texts — the rule identifiers are not passed as
bound parameters. -/
theorem toggle_query_text_depends_on_rule_content :
    ([⟨"rule-a", "ek", .rawBytes ""⟩] : List RuleOnReport).length =
      ([⟨"rule-b", "ek", .rawBytes ""⟩] : List RuleOnReport).length ∧
    getTogglesForRulesQuery [⟨"rule-a", "ek", .rawBytes ""⟩] ≠
      getTogglesForRulesQuery [⟨"rule-b", "ek", .rawBytes ""⟩] := by
  refine ⟨rfl, ?_⟩
  decide

/-- C7: `parseTemplateData` is total: on input accepted by the JSON
validator it returns the parsed (raw-message) value carrying the same
bytes, and on rejected input it returns the raw bytes unchanged; in both
cases the carried payload is exactly the input. -/
theorem parseTemplateData_total_and_fallback (jsonValid : String → Bool)
    (templateData : String) :
    (parseTemplateData jsonValid templateData).payload = templateData ∧
    (jsonValid templateData = true →
      parseTemplateData jsonValid templateData = .parsed templateData) ∧
    (jsonValid templateData = false →
      parseTemplateData jsonValid templateData = .rawBytes templateData) := by
  by_cases h : jsonValid templateData <;>
    simp [parseTemplateData, TemplateValue.payload, h]

/-- Witness for C7 at a concrete validator and concrete well-formed and
malformed inputs. -/
theorem parseTemplateData_total_and_fallback_witness :
    parseTemplateData (fun s => s == "[]") "[]" = .parsed "[]" ∧
    parseTemplateData (fun s => s == "[]") "not json" = .rawBytes "not json" :=
  ⟨(parseTemplateData_total_and_fallback (fun s => s == "[]") "[]").2.1
      (by decide),
   (parseTemplateData_total_and_fallback (fun s => s == "[]") "not json").2.2
      (by decide)⟩

/-- C8: `GetFromClusterRuleToggle` returns the not-found error when no row
matches `(cluster, rule)`, and otherwise returns a matching row whose
`updated_at` sort key is greatest among all matching rows. -/
theorem getFromClusterRuleToggle_latest_or_notfound
    (table : List ClusterRuleToggle) (clusterID ruleID : String) :
    (toggleRowsFor table clusterID ruleID = [] →
      getFromClusterRuleToggle table clusterID ruleID = .error .itemNotFound) ∧
    (toggleRowsFor table clusterID ruleID ≠ [] →
      ∃ r, getFromClusterRuleToggle table clusterID ruleID = .ok r ∧
        r ∈ toggleRowsFor table clusterID ruleID ∧
        r.clusterId = clusterID ∧ r.ruleId = ruleID ∧
        ∀ r' ∈ toggleRowsFor table clusterID ruleID,
          updatedVal r' ≤ updatedVal r) := by
  unfold getFromClusterRuleToggle
  cases hp : pickLatestToggle (toggleRowsFor table clusterID ruleID) with
  | none =>
      refine ⟨fun _ => rfl, fun hne => ?_⟩
      exact absurd ((pickLatestToggle_eq_none _).mp hp) hne
  | some r =>
      obtain ⟨hmem, hmax⟩ := pickLatestToggle_mem_max _ r hp
      have hkey : r.clusterId = clusterID ∧ r.ruleId = ruleID := by
        have := List.mem_filter.mp hmem
        simpa using this.2
      refine ⟨fun hnil => ?_, fun _ => ⟨r, rfl, hmem, hkey.1, hkey.2, hmax⟩⟩
      rw [hnil] at hp
      cases hp

/-- Witness for C8: a concrete table with two rows for the key (the later
one enabled at time 5) and one row for a different cluster. -/
theorem getFromClusterRuleToggle_latest_or_notfound_witness :
    ∃ r, getFromClusterRuleToggle
        [⟨"c", "r", "k1", 1, some 1, none, some 1⟩,
         ⟨"c", "r", "k2", 0, none, some 5, some 5⟩,
         ⟨"x", "r", "k3", 1, some 9, none, some 9⟩] "c" "r" = .ok r ∧
      r ∈ toggleRowsFor
        [⟨"c", "r", "k1", 1, some 1, none, some 1⟩,
         ⟨"c", "r", "k2", 0, none, some 5, some 5⟩,
         ⟨"x", "r", "k3", 1, some 9, none, some 9⟩] "c" "r" ∧
      r.clusterId = "c" ∧ r.ruleId = "r" ∧
      ∀ r' ∈ toggleRowsFor
        [⟨"c", "r", "k1", 1, some 1, none, some 1⟩,
         ⟨"c", "r", "k2", 0, none, some 5, some 5⟩,
         ⟨"x", "r", "k3", 1, some 9, none, some 9⟩] "c" "r",
        updatedVal r' ≤ updatedVal r :=
  (getFromClusterRuleToggle_latest_or_notfound
    [⟨"c", "r", "k1", 1, some 1, none, some 1⟩,
     ⟨"c", "r", "k2", 0, none, some 5, some 5⟩,
     ⟨"x", "r", "k3", 1, some 9, none, some 9⟩] "c" "r").2 (by decide)

/-- C9 counterexample: `ListOfOrgs` does not propagate a row-scan failure;
on a result set whose second row fails to scan it reports success with the
failed row silently omitted. -/
theorem listOfOrgs_swallows_scan_error :
    listOfOrgs (.ok [.ok 1, .error "row scan failed", .ok 3]) =
      ([1, 3], none) := rfl

/-- C9 amended: `ListOfOrgs` propagates a *query* error unchanged, but a
row-scan failure is only logged: the row is skipped and the returned error
is `nil`. -/
theorem listOfOrgs_error_behavior (e : String)
    (rows : List (Except String Nat)) :
    listOfOrgs (.error e) = ([], some (convertDBError e)) ∧
    listOfOrgs (.ok rows) = (rows.filterMap Except.toOption, none) := by
  refine ⟨rfl, ?_⟩
  simp [listOfOrgs, listOfOrgs_foldl]

/-- C10: `ToggleRuleForCluster` rejects any toggle value other than the
two defined constants with the "Unexpected rule toggle value" error before
executing any statement, and for the defined values upserts a row with
exactly one of `disabled_at`/`enabled_at` set to `now` (matching the
flag) and `updated_at = now`. -/
theorem toggleRuleForCluster_validation (table : List ClusterRuleToggle)
    (clusterID ruleID errorKey : String) (ruleToggle : Int) (now : Nat) :
    (ruleToggle ≠ 0 ∧ ruleToggle ≠ 1 →
      toggleRuleForCluster table clusterID ruleID errorKey ruleToggle now =
        .error "Unexpected rule toggle value") ∧
    (ruleToggle = 0 →
      toggleRuleForCluster table clusterID ruleID errorKey ruleToggle now =
        .ok (upsertToggleRow table clusterID ruleID errorKey
          ⟨clusterID, ruleID, errorKey, 0, none, some now, some now⟩) ∧
      (⟨clusterID, ruleID, errorKey, 0, none, some now, some now⟩ :
          ClusterRuleToggle) ∈
        upsertToggleRow table clusterID ruleID errorKey
          ⟨clusterID, ruleID, errorKey, 0, none, some now, some now⟩) ∧
    (ruleToggle = 1 →
      toggleRuleForCluster table clusterID ruleID errorKey ruleToggle now =
        .ok (upsertToggleRow table clusterID ruleID errorKey
          ⟨clusterID, ruleID, errorKey, 1, some now, none, some now⟩) ∧
      (⟨clusterID, ruleID, errorKey, 1, some now, none, some now⟩ :
          ClusterRuleToggle) ∈
        upsertToggleRow table clusterID ruleID errorKey
          ⟨clusterID, ruleID, errorKey, 1, some now, none, some now⟩) := by
  refine ⟨fun ⟨h0, h1⟩ => ?_, fun h0 => ?_, fun h1 => ?_⟩
  · simp [toggleRuleForCluster, h0, h1]
  · subst h0
    exact ⟨by simp [toggleRuleForCluster],
      mem_upsertToggleRow table clusterID ruleID errorKey _⟩
  · subst h1
    exact ⟨by simp [toggleRuleForCluster],
      mem_upsertToggleRow table clusterID ruleID errorKey _⟩

/-- Witness for C10 at concrete inputs: an out-of-range toggle value `2`
is rejected, and the two defined values write the matching row. -/
theorem toggleRuleForCluster_validation_witness :
    toggleRuleForCluster [] "c" "r" "k" 2 7 =
      .error "Unexpected rule toggle value" ∧
    (toggleRuleForCluster [] "c" "r" "k" 0 7 =
        .ok (upsertToggleRow [] "c" "r" "k"
          ⟨"c", "r", "k", 0, none, some 7, some 7⟩) ∧
      (⟨"c", "r", "k", 0, none, some 7, some 7⟩ : ClusterRuleToggle) ∈
        upsertToggleRow [] "c" "r" "k"
          ⟨"c", "r", "k", 0, none, some 7, some 7⟩) ∧
    (toggleRuleForCluster [] "c" "r" "k" 1 7 =
        .ok (upsertToggleRow [] "c" "r" "k"
          ⟨"c", "r", "k", 1, some 7, none, some 7⟩) ∧
      (⟨"c", "r", "k", 1, some 7, none, some 7⟩ : ClusterRuleToggle) ∈
        upsertToggleRow [] "c" "r" "k"
          ⟨"c", "r", "k", 1, some 7, none, some 7⟩) :=
  ⟨(toggleRuleForCluster_validation [] "c" "r" "k" 2 7).1 (by decide),
   (toggleRuleForCluster_validation [] "c" "r" "k" 0 7).2.1 rfl,
   (toggleRuleForCluster_validation [] "c" "r" "k" 1 7).2.2 rfl⟩

end Aggregator
